import Mathlib

/-!
Verification development for the `urlcache` package: a shallow embedding of
the cache engine (`urlcache.go`: `Open`, `readInitial`, `keepCurrent`,
`checkUpdates`, `updateFromWeb`, `saveToTmpFile`, `saveToFile`) and of the
freshness schemes (`cache_schemes.go`: `lastModifiedScheme`, `etagScheme`,
`noopScheme`), together with theorems settling the behavioural claims about
scheme selection, conditional fetching, the atomic-replace protocol, the
error-handling contract of `Open`, and the initial load from a pre-existing
cache file.

External effects (the HTTP client, the filesystem, the callback) are supplied
as explicit environment data; each cycle's observable outcome (resulting
scheme token, cache-path content, callback invocation, request headers, and
the successive observable states of the cache path) is returned as data so
that properties can be both proved in general and evaluated on concrete
inputs.
-/

namespace Urlcache

/-- Go `error` values: a diagnostic message. -/
structure GoError where
  msg : String
deriving DecidableEq

deriving instance DecidableEq for Except

/-- HTTP header collection. Go's `http.Header.Get` returns `""` when the key
is absent; `Set` replaces any previous value. -/
abbrev Headers := List (String × String)

/-- Go `http.Header.Get`: value of the first matching key, `""` if absent. -/
def headerGet (h : Headers) (k : String) : String :=
  match h.find? (fun kv => kv.fst == k) with
  | some kv => kv.snd
  | none => ""

/-- Go `http.Header.Set`: replace any existing value for the key. -/
def setHeader (h : Headers) (k v : String) : Headers :=
  (k, v) :: h.filter (fun kv => kv.fst != k)

/-- Header name constants from `cache_schemes.go`. -/
def lastModifiedHeader : String := "Last-Modified"

/-- Header name constant `ifModifiedSinceHeader` from `cache_schemes.go`. -/
def ifModifiedSinceHeader : String := "If-Modified-Since"

/-- Header name constant `etagHeader` from `cache_schemes.go`. -/
def etagHeader : String := "ETag"

/-- Header name constant `ifNoneMatchHeader` from `cache_schemes.go`. -/
def ifNoneMatchHeader : String := "If-None-Match"

/-- Go `http.StatusNotModified`. -/
def statusNotModified : Nat := 304

/-- The `cacheScheme` implementations from `cache_schemes.go`, as a closed
variant type: `lastModifiedScheme{lastModifiedDate}`, `etagScheme{etag}`,
`noopScheme{}`. -/
inductive CacheScheme where
  | lastModifiedScheme (lastModifiedDate : String)
  | etagScheme (etag : String)
  | noopScheme
deriving DecidableEq

/-- The variant (Go dynamic type) of a scheme value. -/
inductive SchemeKind where
  | lastModifiedKind
  | etagKind
  | noopKind
deriving DecidableEq

/-- Which of the three scheme variants a value is. -/
def schemeKind : CacheScheme → SchemeKind
  | .lastModifiedScheme _ => .lastModifiedKind
  | .etagScheme _ => .etagKind
  | .noopScheme => .noopKind

/-- The `prepareRequest` method of each scheme (`cache_schemes.go`): the last-modified
scheme sets `If-Modified-Since` to its stored date, the etag scheme sets
`If-None-Match` to its stored etag, the noop scheme does nothing. -/
def prepareRequest : CacheScheme → Headers → Headers
  | .lastModifiedScheme d, req => setHeader req ifModifiedSinceHeader d
  | .etagScheme e, req => setHeader req ifNoneMatchHeader e
  | .noopScheme, req => req

/-- An HTTP response as the engine consumes it: status code, headers, and the
outcome of `ioutil.ReadAll(resp.Body)`. -/
structure HttpResponse where
  statusCode : Nat
  headers : Headers
  bodyRead : Except GoError (List Nat)
deriving DecidableEq

/-- The `onResponse` method of each scheme (`cache_schemes.go`): unconditionally store
the response's value of the scheme's header (hence `""` when the header is
absent, by `Header.Get` semantics); noop stores nothing. -/
def onResponse : CacheScheme → HttpResponse → CacheScheme
  | .lastModifiedScheme _, resp =>
      .lastModifiedScheme (headerGet resp.headers lastModifiedHeader)
  | .etagScheme _, resp => .etagScheme (headerGet resp.headers etagHeader)
  | .noopScheme, _ => .noopScheme

/-- Observable state of the file at the cache path. -/
inductive PathState where
  | absent
  | present (content : List Nat)
deriving DecidableEq

/-- Environment for one `updateFromWeb` call: the HTTP client's answer to the
conditional GET, the callback's verdict on the fetched bytes, and the
filesystem's answers to the save/remove/rename steps. -/
structure CycleEnv where
  doResult : Except GoError HttpResponse
  callbackResult : Except GoError Unit
  tmpSaveOk : Bool
  fallbackOpenOk : Bool
  fallbackWriteOk : Bool
  removeOk : Bool
  renameOk : Bool
deriving DecidableEq

/-- Outcome of the commit steps of `updateFromWeb` (lines 138-156): save the
bytes to `<cacheFile>_temp` via `saveToTmpFile`, or on its failure write
directly to the destination (`os.OpenFile` with `O_CREATE|O_TRUNC` then
`saveToFile`); on the temp route, `os.Remove(cacheFile)` (tolerating
`IsNotExist`) then `os.Rename(tmp, cacheFile)`. `states` lists the successive
observable contents of the cache path, starting from the initial state. -/
structure CommitOut where
  res : Except GoError Unit
  path : PathState
  states : List PathState
deriving DecidableEq

/-- The file-replacement part of `updateFromWeb` (`urlcache.go` lines
138-156). On the temp-file route the cache path is untouched while the temp
file is written, becomes absent after `os.Remove`, and holds the new bytes
after `os.Rename`. On the fallback route the destination itself is opened
with `O_TRUNC` (zero length) and then written. -/
def commitData (data : List Nat) (cachePath : PathState) (env : CycleEnv) :
    CommitOut :=
  if env.tmpSaveOk then
    match cachePath with
    | .absent =>
      if env.renameOk then
        ⟨.ok (), .present data, [.absent, .present data]⟩
      else
        ⟨.error ⟨"Unable to move tmpFile to cacheFile"⟩, .absent, [.absent]⟩
    | .present old =>
      if env.removeOk then
        if env.renameOk then
          ⟨.ok (), .present data, [.present old, .absent, .present data]⟩
        else
          ⟨.error ⟨"Unable to move tmpFile to cacheFile"⟩, .absent,
            [.present old, .absent]⟩
      else
        ⟨.error ⟨"Unable to remove old cache file"⟩, .present old,
          [.present old]⟩
  else
    if env.fallbackOpenOk then
      if env.fallbackWriteOk then
        ⟨.ok (), .present data, [cachePath, .present [], .present data]⟩
      else
        ⟨.error ⟨"Unable to copy contents from web to temp file"⟩,
          .present [], [cachePath, .present []]⟩
    else
      ⟨.error ⟨"Unable to open cache file"⟩, cachePath, [cachePath]⟩

/-- Observable outcome of one `updateFromWeb` call. `callbackArg` records the
bytes handed to `onUpdate` (if it was invoked), `sentHeaders` the conditional
headers of the GET request that was issued, `states` the successive
observable contents of the cache path. -/
structure UpdateOut where
  res : Except GoError Unit
  scheme : CacheScheme
  path : PathState
  callbackArg : Option (List Nat)
  sentHeaders : Headers
  states : List PathState
deriving DecidableEq

/-- Function `updateFromWeb` (`urlcache.go` lines 114-157): build the GET request,
`scheme.prepareRequest(req)`, `client.Do(req)`; on transport error return.
Then `scheme.onResponse(resp)` (before anything else), return nil on 304,
read the body, invoke `onUpdate` with the bytes (abort on its error), and
commit the bytes to the cache path. -/
def updateFromWeb (scheme : CacheScheme) (cachePath : PathState)
    (env : CycleEnv) : UpdateOut :=
  let sent := prepareRequest scheme []
  match env.doResult with
  | .error e =>
    ⟨.error ⟨"Unable to update from web: " ++ e.msg⟩, scheme, cachePath,
      none, sent, [cachePath]⟩
  | .ok resp =>
    let scheme2 := onResponse scheme resp
    if resp.statusCode = statusNotModified then
      ⟨.ok (), scheme2, cachePath, none, sent, [cachePath]⟩
    else
      match resp.bodyRead with
      | .error e =>
        ⟨.error ⟨"Unable to read data from web: " ++ e.msg⟩, scheme2,
          cachePath, none, sent, [cachePath]⟩
      | .ok data =>
        match env.callbackResult with
        | .error e => ⟨.error e, scheme2, cachePath, some data, sent,
            [cachePath]⟩
        | .ok _ =>
          let cm := commitData data cachePath env
          ⟨cm.res, scheme2, cm.path, some data, sent, cm.states⟩

/-- Stand-in for `time.Time.Format(http.TimeFormat)`: the exact textual
rendering is irrelevant to every claim, only which time value was formatted;
we use the decimal rendering of the (Nat-modelled) time value. The zero time
value `0` models Go's zero `time.Time`. -/
def formatTime (t : Nat) : String := toString t

/-- Scheme selection from `checkUpdates` (`urlcache.go` lines 95-104): if the
HEAD response's `Last-Modified` header is nonempty use
`lastModifiedScheme{initialDate.Format(http.TimeFormat)}`; otherwise if its
`ETag` header is nonempty use `etagScheme{}`; otherwise `noopScheme{}`. -/
def selectScheme (initialDate : Nat) (hdrs : Headers) : CacheScheme :=
  if headerGet hdrs lastModifiedHeader ≠ "" then
    .lastModifiedScheme (formatTime initialDate)
  else if headerGet hdrs etagHeader ≠ "" then
    .etagScheme ""
  else
    .noopScheme

/-- Environment for one poll cycle: the result of the `http.Head` probe (only
consulted while no scheme is established) and the `updateFromWeb`
environment. -/
structure PollEnv where
  headResult : Except GoError Headers
  cycle : CycleEnv
deriving DecidableEq

/-- Observable outcome of one `checkUpdates` cycle. `schemeBefore` is the
scheme the cycle started with, `probed` whether a HEAD probe was issued,
`scheme` the scheme returned to the loop, `sentRequest` the headers of the
GET request if one was issued, `updateRes` the (logged) result of
`updateFromWeb` if it ran. -/
structure CycleOut where
  schemeBefore : Option CacheScheme
  probed : Bool
  scheme : Option CacheScheme
  path : PathState
  callbackArg : Option (List Nat)
  sentRequest : Option Headers
  updateRes : Option (Except GoError Unit)
  states : List PathState
deriving DecidableEq

/-- Function `checkUpdates` (`urlcache.go` lines 86-112): while the scheme is nil,
issue a HEAD probe; on probe failure log and return the nil scheme (no GET
this cycle); on probe success select the scheme. Then run `updateFromWeb`
with the (established or just-selected) scheme, logging its error, and
return the scheme. -/
def checkUpdates (initialDate : Nat) (scheme? : Option CacheScheme)
    (cachePath : PathState) (env : PollEnv) : CycleOut :=
  match scheme? with
  | none =>
    match env.headResult with
    | .error _ => ⟨none, true, none, cachePath, none, none, none, [cachePath]⟩
    | .ok hdrs =>
      let s := selectScheme initialDate hdrs
      let u := updateFromWeb s cachePath env.cycle
      ⟨none, true, some u.scheme, u.path, u.callbackArg, some u.sentHeaders,
        some u.res, u.states⟩
  | some s =>
    let u := updateFromWeb s cachePath env.cycle
    ⟨some s, false, some u.scheme, u.path, u.callbackArg, some u.sentHeaders,
      some u.res, u.states⟩

/-- Function `keepCurrent` (`urlcache.go` lines 78-84): an endless loop holding the
scheme in a local variable, each iteration running `checkUpdates` and then
sleeping `checkInterval`. Modelled over the list of per-cycle environments;
the sleep separates consecutive list entries. -/
def keepCurrent (initialDate : Nat) :
    Option CacheScheme → PathState → List PollEnv → List CycleOut
  | _, _, [] => []
  | scheme?, cachePath, env :: rest =>
    let o := checkUpdates initialDate scheme? cachePath env
    o :: keepCurrent initialDate o.scheme o.path rest

/-- A pre-existing cache file: its bytes and its filesystem modification
time. -/
structure FileData where
  content : List Nat
  modTime : Nat
deriving DecidableEq

/-- Environment for `readInitial`: the result of `os.Open(cacheFile)` and the
callback's verdict on the file's bytes. -/
structure InitialEnv where
  openResult : Except GoError FileData
  callbackResult : Except GoError Unit
deriving DecidableEq

/-- Events performed in the foreground of `Open` (as opposed to inside the
spawned goroutine): directory creation, opening/reading the existing cache
file, invoking the callback. The poller's network requests and sleeps would
appear as `netCall`/`sleepCall`. -/
inductive FgEvent where
  | mkdirCall
  | fileOpenCall
  | callbackCall
  | netCall
  | sleepCall
deriving DecidableEq

/-- Observable outcome of `readInitial`: the returned baseline date, the
bytes handed to the callback (if any), and the events performed. -/
structure InitialOut where
  date : Nat
  callbackArg : Option (List Nat)
  events : List FgEvent
deriving DecidableEq

/-- Go semantics of `(*os.File).Stat` on a closed handle: the wrapped file
descriptor has been released, so `Stat` fails with `os.ErrClosed` ("use of
closed file"). `readInitial` calls `file.Close()` on line 65 and only then
`file.Stat()` on line 67, so its `Stat` call always takes this form. -/
def statAfterClose : Except GoError FileData :=
  .error ⟨"stat: use of closed file"⟩

/-- Function `readInitial` (`urlcache.go` lines 60-76): open the cache file; if it
opens, feed its bytes to `onUpdate` and `Close` the file; if the callback
succeeded, `file.Stat()` (on the now-closed handle) and, only if that
succeeds, record the file's `ModTime` as the baseline. Returns the zero time
otherwise. -/
def readInitial (env : InitialEnv) : InitialOut :=
  match env.openResult with
  | .error _ => ⟨0, none, [.fileOpenCall]⟩
  | .ok fd =>
    match env.callbackResult with
    | .error _ => ⟨0, some fd.content, [.fileOpenCall, .callbackCall]⟩
    | .ok _ =>
      match statAfterClose with
      | .error _ => ⟨0, some fd.content, [.fileOpenCall, .callbackCall]⟩
      | .ok fi => ⟨fi.modTime, some fd.content, [.fileOpenCall, .callbackCall]⟩

/-- Outcome of `os.MkdirAll` in `Open`: success, an `IsExist` error
(tolerated by `Open`), or any other error (fatal to `Open`). -/
inductive MkdirOutcome where
  | okMk
  | existErr
  | otherErr (e : GoError)
deriving DecidableEq

/-- Whether a `MkdirOutcome` is a non-`IsExist` error. -/
def isOtherErr : MkdirOutcome → Bool
  | .otherErr _ => true
  | _ => false

/-- Directory part of `filepath.Split`: everything up to and including the
final separator, `[]` when there is none. -/
def dirChars : List Char → List Char
  | [] => []
  | c :: rest =>
    if rest.contains '/' then c :: dirChars rest
    else if c == '/' then [c] else []

/-- Directory component of `filepath.Split(cacheFile)`. -/
def splitDir (s : String) : String := String.mk (dirChars s.toList)

/-- The goroutine spawned by `Open`'s `go c.keepCurrent(c.readInitial())`
statement: the baseline date computed by `readInitial` (evaluated in the
foreground, per Go's evaluation of `go`-statement arguments) together with
the poll-cycle environments the loop will consume. -/
structure SpawnTask where
  date : Nat
  polls : List PollEnv
deriving DecidableEq

/-- Environment for `Open`: the cache file path, the check interval, the
result of `os.MkdirAll`, the `readInitial` environment, and the environments
of the poll cycles the background loop will run. -/
structure OpenEnv where
  cacheFile : String
  checkInterval : Int
  mkdir : MkdirOutcome
  initial : InitialEnv
  polls : List PollEnv
deriving DecidableEq

/-- Observable outcome of `Open`: its return value, the spawned goroutine
(if any), and the events performed in `Open`'s own evaluation. -/
structure OpenOut where
  res : Except GoError Unit
  spawned : Option SpawnTask
  events : List FgEvent
deriving DecidableEq

/-- Constant `defaultCheckInterval` is one minute; modelled in milliseconds. -/
def defaultCheckInterval : Int := 60000

/-- The interval substitution at the top of `Open` (lines 29-31). -/
def effectiveInterval (checkInterval : Int) : Int :=
  if checkInterval ≤ 0 then defaultCheckInterval else checkInterval

/-- Function `Open` (`urlcache.go` lines 28-50): substitute the default interval,
create the containing directory when the path has one (failing only on a
non-`IsExist` error), then `go c.keepCurrent(c.readInitial())` — evaluate
`readInitial` in the foreground and spawn the loop — and return nil. -/
def Open (env : OpenEnv) : OpenOut :=
  let dir := splitDir env.cacheFile
  if dir ≠ "" then
    match env.mkdir with
    | .otherErr e =>
      ⟨.error ⟨"Unable to create cache dir: " ++ e.msg⟩, none, [.mkdirCall]⟩
    | _ =>
      let ri := readInitial env.initial
      ⟨.ok (), some ⟨ri.date, env.polls⟩, .mkdirCall :: ri.events⟩
  else
    let ri := readInitial env.initial
    ⟨.ok (), some ⟨ri.date, env.polls⟩, ri.events⟩

/-- Running the spawned goroutine: `keepCurrent` starting with no scheme
(`var scheme cacheScheme` is nil) from the given cache-path state. -/
def runTask (t : SpawnTask) (cachePath : PathState) : List CycleOut :=
  keepCurrent t.date none cachePath t.polls

/-- Whether an `Except` is an error. -/
def exceptIsError {α : Type} : Except GoError α → Bool
  | .error _ => true
  | .ok _ => false

/-- Sample cycle: the server answers 200 with `ETag: "new"` and body
`[1, 2]`, the callback rejects the bytes, all filesystem steps would
succeed. -/
def c1env : CycleEnv :=
  ⟨.ok ⟨200, [(etagHeader, "new")], .ok [1, 2]⟩,
    .error ⟨"callback rejected"⟩, true, true, true, true, true⟩

/-- Sample cycle: the server answers 200 with body `[1]`, the callback
accepts, all filesystem steps succeed. -/
def c2env : CycleEnv :=
  ⟨.ok ⟨200, [], .ok [1]⟩, .ok (), true, true, true, true, true⟩

/-- Sample poll cycle: the conditional GET comes back 304. -/
def c3env : PollEnv :=
  ⟨.ok [], ⟨.ok ⟨304, [(etagHeader, "e1")], .ok []⟩, .ok (),
    true, true, true, true, true⟩⟩

/-- Sample poll cycle: HEAD probe succeeds with no scheme headers, GET
succeeds. -/
def c4env : PollEnv :=
  ⟨.ok [], ⟨.ok ⟨200, [], .ok [4]⟩, .ok (), true, true, true, true, true⟩⟩

/-- Sample cycle environment with an etag-bearing 200 response. -/
def c5cyc : CycleEnv :=
  ⟨.ok ⟨200, [(etagHeader, "a")], .ok [1]⟩, .ok (),
    true, true, true, true, true⟩

/-- Two poll cycles: the first HEAD probe fails, the second succeeds with an
`ETag` header. -/
def c5polls : List PollEnv :=
  [⟨.error ⟨"down"⟩, c5cyc⟩, ⟨.ok [(etagHeader, "a")], c5cyc⟩]

/-- The first cycle of a `keepCurrent` run over `c5polls`. -/
def c5out : CycleOut := checkUpdates 0 none .absent ⟨.error ⟨"down"⟩, c5cyc⟩

/-- One poll cycle against an unreachable host: both the HEAD probe and any
GET would fail at the transport. -/
def c7polls : List PollEnv :=
  [⟨.error ⟨"dial: no such host"⟩,
    ⟨.error ⟨"dial: no such host"⟩, .ok (), true, true, true, true, true⟩⟩]

/-- Sample `Open` environment: a path with a directory component, directory
creation succeeds, a cache file with bytes `[3]` and modification time 9
exists, the callback accepts it. -/
def c7env : OpenEnv :=
  ⟨"dir/cachefile", 50, .okMk, ⟨.ok ⟨[3], 9⟩, .ok ()⟩, c7polls⟩

/-- One poll cycle against an unreachable host (distinct copy for the
unreachable-URL scenario). -/
def c8polls : List PollEnv :=
  [⟨.error ⟨"dial: no such host"⟩,
    ⟨.error ⟨"dial: no such host"⟩, .ok (), true, true, true, true, true⟩⟩]

/-- Sample `Open` environment for the unreachable-URL scenario: bare file
name (no directory component), no pre-existing cache file, unreachable
host. -/
def c8env : OpenEnv :=
  ⟨"cachefile", 50, .okMk, ⟨.error ⟨"open: no such file"⟩, .ok ()⟩, c8polls⟩

/-- Sample cycle: a 304 response that carries no headers at all. -/
def c10env : CycleEnv :=
  ⟨.ok ⟨304, [], .ok []⟩, .ok (), true, true, true, true, true⟩

/-- Method `onResponse` never changes the variant of a scheme, only its stored
token. -/
theorem onResponse_kind (s : CacheScheme) (resp : HttpResponse) :
    schemeKind (onResponse s resp) = schemeKind s := by
  cases s <;> rfl

/-- The scheme returned by `updateFromWeb` is the input scheme on transport
error and `onResponse` of the input scheme otherwise: `onResponse` runs right
after `client.Do` succeeds, before the 304 check, the body read, the
callback, and the commit. -/
theorem updateFromWeb_scheme (s : CacheScheme) (p : PathState)
    (env : CycleEnv) :
    (updateFromWeb s p env).scheme =
      (match env.doResult with
       | .error _ => s
       | .ok resp => onResponse s resp) := by
  obtain ⟨dr, cb, ts, fo, fw, rm, rn⟩ := env
  cases dr with
  | error e => rfl
  | ok resp =>
    obtain ⟨st, hd, br⟩ := resp
    by_cases hst : st = statusNotModified
    · simp [updateFromWeb, hst]
    · cases br with
      | error e => simp [updateFromWeb, hst]
      | ok data =>
        cases cb with
        | error e => simp [updateFromWeb, hst]
        | ok u => simp [updateFromWeb, hst]

/-- Function `updateFromWeb` always issues the GET request, carrying exactly the
headers `prepareRequest` attached, whatever the scheme, its token, the path
state, or the environment. -/
theorem updateFromWeb_sentHeaders (s : CacheScheme) (p : PathState)
    (env : CycleEnv) :
    (updateFromWeb s p env).sentHeaders = prepareRequest s [] := by
  obtain ⟨dr, cb, ts, fo, fw, rm, rn⟩ := env
  cases dr with
  | error e => rfl
  | ok resp =>
    obtain ⟨st, hd, br⟩ := resp
    by_cases hst : st = statusNotModified
    · simp [updateFromWeb, hst]
    · cases br with
      | error e => simp [updateFromWeb, hst]
      | ok data =>
        cases cb with
        | error e => simp [updateFromWeb, hst]
        | ok u => simp [updateFromWeb, hst]

/-- When the commit steps succeed the cache path ends holding exactly the
fetched bytes, and every observable intermediate state of the cache path is
the initial state, absent, empty, or the complete new content. -/
theorem commitData_success (data : List Nat) (p : PathState) (env : CycleEnv)
    (h : (commitData data p env).res = .ok ()) :
    (commitData data p env).path = .present data ∧
      ∀ st ∈ (commitData data p env).states,
        st = p ∨ st = .absent ∨ st = .present [] ∨ st = .present data := by
  obtain ⟨dr, cb, ts, fo, fw, rm, rn⟩ := env
  cases ts <;> cases fo <;> cases fw <;> cases rm <;> cases rn <;>
    cases p <;> simp_all [commitData]

/-- Function `checkUpdates` records as `schemeBefore` exactly the scheme it was
started with. -/
theorem checkUpdates_schemeBefore (d : Nat) (sc : Option CacheScheme)
    (p : PathState) (env : PollEnv) :
    (checkUpdates d sc p env).schemeBefore = sc := by
  obtain ⟨hr, cyc⟩ := env
  cases sc with
  | none => cases hr <;> rfl
  | some s => rfl

/-- Every record produced by the `keepCurrent` loop is the outcome of a
single `checkUpdates` cycle. -/
theorem keepCurrent_mem (d : Nat) :
    ∀ (envs : List PollEnv) (sc : Option CacheScheme) (p : PathState)
      (out : CycleOut), out ∈ keepCurrent d sc p envs →
      ∃ sc0 p0 env0, out = checkUpdates d sc0 p0 env0 := by
  intro envs
  induction envs with
  | nil => intro sc p out h; simp [keepCurrent] at h
  | cons e es ih =>
    intro sc p out h
    simp only [keepCurrent, List.mem_cons] at h
    rcases h with h1 | h1
    · exact ⟨sc, p, e, h1⟩
    · exact ih _ _ _ h1

/-- The first cycle of a `keepCurrent` run starts with the loop's incoming
scheme. -/
theorem keepCurrent_headq (d : Nat) (es : List PollEnv)
    (sc : Option CacheScheme) (p : PathState) :
    ∀ b ∈ (keepCurrent d sc p es).head?, b.schemeBefore = sc := by
  cases es with
  | nil => intro b hb; simp [keepCurrent] at hb
  | cons e es' =>
    intro b hb
    simp only [keepCurrent, List.head?_cons, Option.mem_def,
      Option.some.injEq] at hb
    rw [← hb]
    exact checkUpdates_schemeBefore d sc p e

/-- Consecutive cycles of the loop are linked: each cycle starts with
exactly the scheme the previous cycle returned (the loop variable of
`keepCurrent`). -/
theorem keepCurrent_chain (d : Nat) :
    ∀ (envs : List PollEnv) (sc : Option CacheScheme) (p : PathState),
      List.Chain' (fun a b => b.schemeBefore = a.scheme)
        (keepCurrent d sc p envs) := by
  intro envs
  induction envs with
  | nil => intro sc p; simp [keepCurrent]
  | cons e es ih =>
    intro sc p
    simp only [keepCurrent]
    rw [List.chain'_cons']
    exact ⟨keepCurrent_headq d es _ _, ih _ _⟩

/-- While the probe keeps failing, the loop neither selects a scheme, nor
invokes the callback, nor touches the cache path: every cycle is a probe
retry. -/
theorem keepCurrent_all_head_fail (d : Nat) :
    ∀ (envs : List PollEnv) (p : PathState),
      (∀ pe ∈ envs, exceptIsError pe.headResult = true) →
      ∀ out ∈ keepCurrent d none p envs,
        out.callbackArg = none ∧ out.path = p ∧ out.scheme = none ∧
          out.probed = true := by
  intro envs
  induction envs with
  | nil => intro p _ out h; simp [keepCurrent] at h
  | cons e es ih =>
    intro p hall out h
    have he : exceptIsError e.headResult = true := hall e (List.mem_cons_self e es)
    obtain ⟨hr, cyc⟩ := e
    cases hr with
    | error er =>
      simp only [keepCurrent, List.mem_cons] at h
      rcases h with h | h
      · subst h; exact ⟨rfl, rfl, rfl, rfl⟩
      · exact ih p (fun pe hpe => hall pe (List.mem_cons_of_mem _ hpe)) out h
    | ok hdrs => simp [exceptIsError] at he

/-- Claim C1 counterexample: a cycle in which the fetched body `[1, 2]` is
delivered to the callback and the callback returns an error does leave the
cache file untouched, but the stored freshness token has already been
overwritten: the etag scheme's token moved from `"old"` to the response's
`"new"`, so the token is not "exactly as it was before that cycle began". -/
theorem c1_counterexample :
    (updateFromWeb (.etagScheme "old") (.present [9]) c1env).callbackArg =
        some [1, 2] ∧
      (updateFromWeb (.etagScheme "old") (.present [9]) c1env).res =
        .error ⟨"callback rejected"⟩ ∧
      (updateFromWeb (.etagScheme "old") (.present [9]) c1env).path =
        .present [9] ∧
      (updateFromWeb (.etagScheme "old") (.present [9]) c1env).scheme ≠
        .etagScheme "old" := by
  decide

/-- Claim C1 (amended): when the fetched body is delivered to the callback
and the callback returns an error, the refresh cycle aborts with that error
and the on-disk cache file exactly as it was (no write, no intermediate
state); but the stored freshness token was already overwritten with the
response's header value by `onResponse`, which runs before the callback, so
the token does advance whenever that value differs from the stored one. -/
theorem c1_callback_error_file_untouched_token_advanced
    (s : CacheScheme) (p : PathState) (env : CycleEnv) (resp : HttpResponse)
    (data : List Nat) (e : GoError)
    (hdo : env.doResult = .ok resp)
    (hst : resp.statusCode ≠ statusNotModified)
    (hbody : resp.bodyRead = .ok data)
    (hcb : env.callbackResult = .error e) :
    (updateFromWeb s p env).res = .error e ∧
      (updateFromWeb s p env).path = p ∧
      (updateFromWeb s p env).states = [p] ∧
      (updateFromWeb s p env).callbackArg = some data ∧
      (updateFromWeb s p env).scheme = onResponse s resp := by
  obtain ⟨dr, cb, ts, fo, fw, rm, rn⟩ := env
  obtain ⟨st, hd, br⟩ := resp
  dsimp only at hdo hbody hcb hst
  subst hdo hbody hcb
  simp [updateFromWeb, hst]

/-- Claim C1 witness: the amended claim evaluated on the concrete rejected
cycle `c1env`. -/
theorem c1_witness :
    (updateFromWeb (.etagScheme "old") (.present [9]) c1env).res =
        .error ⟨"callback rejected"⟩ ∧
      (updateFromWeb (.etagScheme "old") (.present [9]) c1env).path =
        .present [9] ∧
      (updateFromWeb (.etagScheme "old") (.present [9]) c1env).states =
        [.present [9]] ∧
      (updateFromWeb (.etagScheme "old") (.present [9]) c1env).callbackArg =
        some [1, 2] ∧
      (updateFromWeb (.etagScheme "old") (.present [9]) c1env).scheme =
        onResponse (.etagScheme "old") ⟨200, [(etagHeader, "new")], .ok [1, 2]⟩ :=
  c1_callback_error_file_untouched_token_advanced _ _ _ _ _ _ rfl (by decide)
    rfl rfl

/-- Claim C2 counterexample: on a fully successful refresh over existing
content `[7]`, the observable states of the cache path include `absent` —
between `os.Remove(cacheFile)` and `os.Rename(tmp, cacheFile)` the file at
the cache path is observable as missing, contradicting "never observable as
missing". -/
theorem c2_counterexample :
    (updateFromWeb .noopScheme (.present [7]) c2env).res = .ok () ∧
      (updateFromWeb .noopScheme (.present [7]) c2env).path = .present [1] ∧
      PathState.absent ∈ (updateFromWeb .noopScheme (.present [7]) c2env).states := by
  decide

/-- Claim C2 (amended): after a successful refresh cycle the cache path
holds exactly the bytes fetched in that cycle; every observable intermediate
state of the replacement is the complete previous state, the complete new
content, absent (the window between removing the old file and renaming the
temp file), or zero-length (just after the fallback path opens the
destination with `O_TRUNC`) — never a partial mixture of old and new
bytes. -/
theorem c2_success_commits_exact_bytes
    (s : CacheScheme) (p : PathState) (env : CycleEnv) (resp : HttpResponse)
    (data : List Nat)
    (hdo : env.doResult = .ok resp)
    (hst : resp.statusCode ≠ statusNotModified)
    (hbody : resp.bodyRead = .ok data)
    (hcb : env.callbackResult = .ok ())
    (hres : (updateFromWeb s p env).res = .ok ()) :
    (updateFromWeb s p env).path = .present data ∧
      ∀ q ∈ (updateFromWeb s p env).states,
        q = p ∨ q = .absent ∨ q = .present [] ∨ q = .present data := by
  obtain ⟨dr, cb, ts, fo, fw, rm, rn⟩ := env
  obtain ⟨stc, hd, br⟩ := resp
  dsimp only at hdo hbody hcb hst
  subst hdo hbody hcb
  simp only [updateFromWeb, hst, if_neg] at hres ⊢
  exact commitData_success data p _ hres

/-- Claim C2 witness: the amended claim evaluated on the concrete successful
cycle `c2env` over previous content `[7]`. -/
theorem c2_witness :
    (updateFromWeb .noopScheme (.present [7]) c2env).path = .present [1] ∧
      ∀ q ∈ (updateFromWeb .noopScheme (.present [7]) c2env).states,
        q = .present [7] ∨ q = .absent ∨ q = .present [] ∨ q = .present [1] :=
  c2_success_commits_exact_bytes _ _ _ _ _ rfl (by decide) rfl rfl (by decide)

/-- Claim C3: with an established scheme, a poll cycle whose conditional GET
comes back 304 (`http.StatusNotModified`) invokes no callback, performs no
write to the cache path (the path's observable state stays exactly the
initial one), and returns nil so the loop proceeds directly to the interval
sleep (`keepCurrent` sleeps after every cycle). -/
theorem c3_not_modified_skips_callback_and_write
    (d : Nat) (s : CacheScheme) (p : PathState) (env : PollEnv)
    (resp : HttpResponse)
    (hdo : env.cycle.doResult = .ok resp)
    (hst : resp.statusCode = statusNotModified) :
    (checkUpdates d (some s) p env).callbackArg = none ∧
      (checkUpdates d (some s) p env).path = p ∧
      (checkUpdates d (some s) p env).states = [p] ∧
      (checkUpdates d (some s) p env).updateRes = some (.ok ()) := by
  obtain ⟨hr, cyc⟩ := env
  obtain ⟨dr, cb, ts, fo, fw, rm, rn⟩ := cyc
  obtain ⟨stc, hd, br⟩ := resp
  dsimp only at hdo hst
  subst hdo hst
  simp [checkUpdates, updateFromWeb]

/-- Claim C3 witness: the claim evaluated on the concrete 304 poll cycle
`c3env`. -/
theorem c3_witness :
    (checkUpdates 0 (some (.etagScheme "a")) (.present [5]) c3env).callbackArg
        = none ∧
      (checkUpdates 0 (some (.etagScheme "a")) (.present [5]) c3env).path =
        .present [5] ∧
      (checkUpdates 0 (some (.etagScheme "a")) (.present [5]) c3env).states =
        [.present [5]] ∧
      (checkUpdates 0 (some (.etagScheme "a")) (.present [5]) c3env).updateRes
        = some (.ok ()) :=
  c3_not_modified_skips_callback_and_write 0 _ _ _ _ rfl rfl

/-- Claim C4: on a successful HEAD probe, the scheme is chosen with this
precedence: a nonempty `Last-Modified` header yields the last-modified
scheme (seeded with the formatted initial date); otherwise a nonempty `ETag`
header yields the etag scheme; otherwise the noop (unconditional) scheme.
The selected scheme is then used for that cycle's conditional GET. -/
theorem c4_scheme_selection_precedence (d : Nat) (hdrs : Headers)
    (p : PathState) (env : PollEnv) :
    (headerGet hdrs lastModifiedHeader ≠ "" →
      selectScheme d hdrs = .lastModifiedScheme (formatTime d)) ∧
      (headerGet hdrs lastModifiedHeader = "" →
        headerGet hdrs etagHeader ≠ "" →
        selectScheme d hdrs = .etagScheme "") ∧
      (headerGet hdrs lastModifiedHeader = "" →
        headerGet hdrs etagHeader = "" →
        selectScheme d hdrs = .noopScheme) ∧
      (env.headResult = .ok hdrs →
        (checkUpdates d none p env).sentRequest =
          some (prepareRequest (selectScheme d hdrs) [])) := by
  refine ⟨fun h => ?_, fun h1 h2 => ?_, fun h1 h2 => ?_, fun h => ?_⟩
  · simp [selectScheme, h]
  · simp [selectScheme, h1, h2]
  · simp [selectScheme, h1, h2]
  · obtain ⟨hr, cyc⟩ := env
    dsimp only at h
    subst h
    simp [checkUpdates, updateFromWeb_sentHeaders]

/-- Claim C4 witness: the three precedence cases at concrete headers, and
the probe-then-fetch coupling on the concrete poll cycle `c4env`. -/
theorem c4_witness :
    selectScheme 5 [(lastModifiedHeader, "x"), (etagHeader, "t")] =
        .lastModifiedScheme (formatTime 5) ∧
      selectScheme 5 [(etagHeader, "t")] = .etagScheme "" ∧
      selectScheme 5 [] = .noopScheme ∧
      (checkUpdates 5 none .absent c4env).sentRequest =
        some (prepareRequest (selectScheme 5 []) []) :=
  ⟨(c4_scheme_selection_precedence 5 [(lastModifiedHeader, "x"),
      (etagHeader, "t")] .absent c4env).1 (by decide),
    (c4_scheme_selection_precedence 5 [(etagHeader, "t")] .absent c4env).2.1
      (by decide) (by decide),
    (c4_scheme_selection_precedence 5 [] .absent c4env).2.2.1 rfl rfl,
    (c4_scheme_selection_precedence 5 [] .absent c4env).2.2.2 rfl⟩

/-- Claim C5: in a `keepCurrent` run started with no scheme, every cycle
that begins with no established scheme issues the HEAD probe (selection is
retried), and every cycle that begins with an established scheme issues no
probe and ends with a scheme of the same variant (only the token may move);
consecutive cycles are linked, each starting with exactly the scheme the
previous cycle returned — so once established, the scheme's variant is fixed
for the rest of the run, whatever later transport errors occur. -/
theorem c5_scheme_selection_at_most_once
    (d : Nat) (p : PathState) (envs : List PollEnv) (out : CycleOut)
    (hmem : out ∈ keepCurrent d none p envs) :
    (out.schemeBefore = none → out.probed = true) ∧
      (∀ s, out.schemeBefore = some s → out.probed = false ∧
        ∃ s', out.scheme = some s' ∧ schemeKind s' = schemeKind s) ∧
      List.Chain' (fun a b => b.schemeBefore = a.scheme)
        (keepCurrent d none p envs) := by
  obtain ⟨sc0, p0, env0, rfl⟩ := keepCurrent_mem d envs none p out hmem
  refine ⟨?_, ?_, keepCurrent_chain d envs none p⟩
  · intro h
    rw [checkUpdates_schemeBefore] at h
    subst h
    obtain ⟨hr, cyc⟩ := env0
    cases hr <;> rfl
  · intro s h
    rw [checkUpdates_schemeBefore] at h
    subst h
    refine ⟨rfl, (updateFromWeb s p0 env0.cycle).scheme, rfl, ?_⟩
    rw [updateFromWeb_scheme]
    rcases hdr : env0.cycle.doResult with e | resp
    · simp only [hdr]
    · simp only [hdr]
      exact onResponse_kind s resp

/-- Claim C5 witness: the invariant evaluated on the first cycle of a
concrete two-cycle run whose first probe fails. -/
theorem c5_witness :
    (c5out.schemeBefore = none → c5out.probed = true) ∧
      (∀ s, c5out.schemeBefore = some s → c5out.probed = false ∧
        ∃ s', c5out.scheme = some s' ∧ schemeKind s' = schemeKind s) ∧
      List.Chain' (fun a b => b.schemeBefore = a.scheme)
        (keepCurrent 0 none .absent c5polls) :=
  c5_scheme_selection_at_most_once 0 .absent c5polls c5out (by decide)

/-- Claim C6 (code bug): when a readable cache file exists, `readInitial`
does invoke the callback exactly once with exactly the file's bytes before
any network activity; but even when the callback succeeds, the baseline is
never set to the file's modification time: `readInitial` calls `file.Stat()`
only after `file.Close()`, and `(*os.File).Stat` on a closed handle always
fails, so the returned baseline is the zero time in every environment —
here evaluated on a file with content `[1, 2, 3]` and modification time
`777`, where the claim requires baseline `777` and the code yields `0`. -/
theorem c6_stat_after_close_loses_baseline :
    (∀ env : InitialEnv, (readInitial env).date = 0) ∧
      (readInitial ⟨.ok ⟨[1, 2, 3], 777⟩, .ok ()⟩).callbackArg =
        some [1, 2, 3] ∧
      (readInitial ⟨.ok ⟨[1, 2, 3], 777⟩, .ok ()⟩).events =
        [.fileOpenCall, .callbackCall] ∧
      (readInitial ⟨.ok ⟨[1, 2, 3], 777⟩, .ok ()⟩).date = 0 := by
  refine ⟨?_, by decide, by decide, by decide⟩
  intro env
  obtain ⟨op, cb⟩ := env
  cases op <;> cases cb <;> rfl

/-- Claim C7: `Open` performs no network call and no sleep in its own
evaluation; whenever it returns nil it has spawned the poller goroutine —
carrying the baseline computed by `readInitial` and the whole sequence of
poll cycles — and `Open`'s own result and foreground events are identical
whatever behaviour those poll cycles would have (the loop's I/O and sleeps
happen only in the spawned task). -/
theorem c7_open_fire_and_forget (env : OpenEnv) (ps' : List PollEnv) :
    FgEvent.netCall ∉ (Open env).events ∧
      FgEvent.sleepCall ∉ (Open env).events ∧
      ((Open env).res = .ok () →
        (Open env).spawned = some ⟨(readInitial env.initial).date, env.polls⟩) ∧
      (Open ⟨env.cacheFile, env.checkInterval, env.mkdir, env.initial, ps'⟩).res
        = (Open env).res ∧
      (Open ⟨env.cacheFile, env.checkInterval, env.mkdir, env.initial, ps'⟩).events
        = (Open env).events := by
  obtain ⟨cf, ci, mk, ini, polls⟩ := env
  obtain ⟨op, cb⟩ := ini
  by_cases hdir : splitDir cf ≠ "" <;> cases mk <;> cases op <;> cases cb <;>
    simp [Open, readInitial, hdir, statAfterClose]

/-- Claim C7 witness: the fire-and-forget contract evaluated on the concrete
environment `c7env` (existing cache file, reachable directory). -/
theorem c7_witness :
    (Open c7env).spawned = some ⟨0, c7polls⟩ ∧
      FgEvent.netCall ∉ (Open c7env).events ∧
      FgEvent.sleepCall ∉ (Open c7env).events :=
  ⟨by
    have h := (c7_open_fire_and_forget c7env []).2.2.1 (by decide)
    simpa using h,
    (c7_open_fire_and_forget c7env []).1,
    (c7_open_fire_and_forget c7env []).2.1⟩

/-- Claim C8: `Open` returns nil exactly unless the path has a directory
component and creating it fails with a non-`IsExist` error; nothing a poll
cycle does can change that. And when every probe fails at the transport
(unreachable URL), running the spawned loop never invokes the callback,
never creates the cache file (the path stays absent), never establishes a
scheme, and keeps probing. -/
theorem c8_setup_errors_only (env : OpenEnv) :
    ((Open env).res = .ok () ↔
      ¬(splitDir env.cacheFile ≠ "" ∧ isOtherErr env.mkdir = true)) ∧
      (∀ t, (Open env).spawned = some t →
        (∀ pe ∈ t.polls, exceptIsError pe.headResult = true) →
        ∀ out ∈ runTask t .absent,
          out.callbackArg = none ∧ out.path = .absent ∧
            out.scheme = none ∧ out.probed = true) := by
  constructor
  · obtain ⟨cf, ci, mk, ini, polls⟩ := env
    by_cases hdir : splitDir cf ≠ "" <;> cases mk <;>
      simp [Open, isOtherErr, hdir]
  · intro t _ hall out hout
    exact keepCurrent_all_head_fail t.date t.polls .absent hall out hout

/-- Claim C8 witness: the unreachable-URL scenario on the concrete
environment `c8env`: `Open` still returns nil, and the spawned loop neither
invokes the callback nor creates the cache file. -/
theorem c8_witness :
    (Open c8env).res = .ok () ∧
      ∀ out ∈ runTask ⟨0, c8polls⟩ .absent,
        out.callbackArg = none ∧ out.path = .absent ∧
          out.scheme = none ∧ out.probed = true :=
  ⟨((c8_setup_errors_only c8env).1).mpr (by decide),
    (c8_setup_errors_only c8env).2 ⟨0, c8polls⟩ (by decide) (by decide)⟩

/-- Claim C9: every `updateFromWeb` cycle with an established scheme issues
the GET request, whatever the scheme, its stored token (including one equal
to the previous cycle's), the path state, or the environment — no scheme
suppresses the fetch locally — and the request carries exactly the scheme's
conditional header with the stored token (`If-Modified-Since` for the
last-modified scheme, `If-None-Match` for the etag scheme, nothing for the
noop scheme). -/
theorem c9_schemes_never_suppress (d : Nat) (s : CacheScheme)
    (p : PathState) (env : PollEnv) (t : String) :
    (checkUpdates d (some s) p env).sentRequest =
        some (prepareRequest s []) ∧
      (updateFromWeb s p env.cycle).sentHeaders = prepareRequest s [] ∧
      prepareRequest (.lastModifiedScheme t) [] =
        [(ifModifiedSinceHeader, t)] ∧
      prepareRequest (.etagScheme t) [] = [(ifNoneMatchHeader, t)] ∧
      prepareRequest .noopScheme [] = [] := by
  refine ⟨?_, updateFromWeb_sentHeaders s p env.cycle, rfl, rfl, rfl⟩
  simp [checkUpdates, updateFromWeb_sentHeaders]

/-- Claim C10: on every conditional fetch that gets an HTTP response — 304s
and responses whose body the callback later rejects included — the scheme
returned by the cycle is `onResponse` of the response, which overwrites the
stored token with the response's value of the scheme's header; a response
that omits the header resets the stored token to the empty string. -/
theorem c10_token_unconditionally_overwritten (s : CacheScheme)
    (p : PathState) (env : CycleEnv) (resp : HttpResponse) (t : String)
    (hdo : env.doResult = .ok resp) :
    (updateFromWeb s p env).scheme = onResponse s resp ∧
      onResponse (.lastModifiedScheme t) resp =
        .lastModifiedScheme (headerGet resp.headers lastModifiedHeader) ∧
      onResponse (.etagScheme t) resp =
        .etagScheme (headerGet resp.headers etagHeader) ∧
      (resp.headers.find? (fun kv => kv.fst == etagHeader) = none →
        onResponse (.etagScheme t) resp = .etagScheme "") ∧
      (resp.headers.find? (fun kv => kv.fst == lastModifiedHeader) = none →
        onResponse (.lastModifiedScheme t) resp =
          .lastModifiedScheme "") := by
  refine ⟨?_, rfl, rfl, fun h => ?_, fun h => ?_⟩
  · rw [updateFromWeb_scheme, hdo]
  · simp [onResponse, headerGet, h]
  · simp [onResponse, headerGet, h]

/-- Claim C10 witness: a header-less 304 response (`c10env`) resets an etag
scheme's token from `"x"` to the empty string even though no callback ran
and no file was written. -/
theorem c10_witness :
    (updateFromWeb (.etagScheme "x") (.present [5]) c10env).scheme =
        onResponse (.etagScheme "x") ⟨304, [], .ok []⟩ ∧
      onResponse (.etagScheme "x") (⟨304, [], .ok []⟩ : HttpResponse) =
        .etagScheme "" :=
  ⟨(c10_token_unconditionally_overwritten (.etagScheme "x") (.present [5])
      c10env ⟨304, [], .ok []⟩ "x" rfl).1,
    (c10_token_unconditionally_overwritten (.etagScheme "x") (.present [5])
      c10env ⟨304, [], .ok []⟩ "x" rfl).2.2.2.1 rfl⟩

end Urlcache
